import Mathlib

/-!
# Verification of the Sintezy SDK client (TypeScript source, shallow embedding)

Shallow embedding of the SintezySDK class from src/index.ts. Machine time is
modelled in integer milliseconds since the epoch (the JavaScript Date.now
value). Network effects are made explicit: each operation takes the HTTP
response the remote endpoint would deliver and returns the successor state,
the list of HTTP calls it issued, and either a value or a failure. JavaScript
string truthiness (undefined or the empty string count as false) is modelled
by strTruthy and jsOrDefault.
-/

namespace Sintezy

/-- The environment field of the configuration: production or sandbox. -/
inductive Env where
  | production
  | sandbox
deriving DecidableEq, Repr

/-- SintezySDKConfig from the source. Optional or possibly-missing string
fields are Option String, none meaning the key is absent. -/
structure SintezySDKConfig where
  clientId : Option String
  clientSecret : Option String
  environment : Option Env
  baseUrl : Option String
deriving DecidableEq, Repr

/-- AuthToken from the source; expiresAt is an absolute instant in
milliseconds. -/
structure AuthToken where
  accessToken : String
  expiresIn : Int
  tokenType : String
  expiresAt : Int
deriving DecidableEq, Repr, Inhabited

/-- SintezySDKError: message plus optional statusCode and code, matching the
constructor of the error class in the source. -/
structure SintezySDKError where
  message : String
  statusCode : Option Nat
  code : Option String
deriving DecidableEq, Repr

/-- A failure surfaced by an async operation: either a thrown SintezySDKError
or a rejection of response.json() on a success-status body that does not
parse. -/
inductive SDKFailure where
  | sdk (e : SintezySDKError)
  | jsonRejected
deriving DecidableEq, Repr

/-- The mutable state of a SintezySDK instance: its config (fixed after
construction) and the single held token (null initially). -/
structure SDKState where
  config : SintezySDKConfig
  token : Option AuthToken
deriving DecidableEq, Repr

/-- JavaScript truthiness of a possibly-absent string: undefined and the
empty string are falsy. -/
def strTruthy : Option String → Bool
  | none => false
  | some s => s != ""

/-- The JavaScript idiom m OR-ELSE d for a possibly-absent string m: gives d
when m is absent or the empty string. -/
def jsOrDefault (m : Option String) (d : String) : String :=
  match m with
  | some s => if s = "" then d else s
  | none => d

/-- One HTTP call issued through fetch: method, full URL, headers, optional
serialized body. -/
structure HttpCall where
  method : String
  url : String
  headers : List (String × String)
  body : Option String
deriving DecidableEq, Repr

/-- The parse of a JSON error body: optional message and code fields. -/
structure ErrorBody where
  message : Option String
  code : Option String
deriving DecidableEq, Repr

/-- The parse of a successful token-endpoint body. -/
structure TokenSuccessBody where
  access_token : String
  expires_in : Int
  token_type : String
deriving DecidableEq, Repr

/-- The response the token endpoint delivers: HTTP status, the parse of the
body as a token grant (none when response.json() would reject), and the parse
of the body as an error object (none when response.json() would reject, in
which case the code substitutes an empty object). -/
structure TokenHttpResponse where
  status : Nat
  successBody : Option TokenSuccessBody
  errorBody : Option ErrorBody
deriving DecidableEq, Repr

/-- The response a domain endpoint delivers; the success body is the parsed
result value of type A (none when response.json() would reject). -/
structure ReqHttpResponse (A : Type) where
  status : Nat
  successBody : Option A
  errorBody : Option ErrorBody

/-- response.ok of the fetch API: status in the range 200 to 299. -/
def fetchOk (status : Nat) : Bool :=
  decide (200 ≤ status ∧ status < 300)

/-- SintezySDK.constructor: rejects a config whose clientId or clientSecret
is absent or empty with a SintezySDKError, otherwise stores the config with
environment defaulted to production by the object spread, holding no token. -/
def construct (config : SintezySDKConfig) : Except SintezySDKError SDKState :=
  if !(strTruthy config.clientId) || !(strTruthy config.clientSecret) then
    .error ⟨"clientId and clientSecret are required", none, none⟩
  else
    .ok ⟨{ config with environment := some ((config.environment).getD Env.production) }, none⟩

/-- SintezySDK.getBaseUrl: the baseUrl override when truthy, else the fixed
URL selected by comparing environment with production. -/
def getBaseUrl (config : SintezySDKConfig) : String :=
  if strTruthy config.baseUrl then
    (config.baseUrl).getD ""
  else if config.environment = some Env.production then
    "https://api.sintezy.com"
  else
    "https://sandbox-api.sintezy.com"

/-- JSON.stringify of the client-credentials grant body sent by
authenticate. -/
def tokenRequestBody (clientId clientSecret : String) : String :=
  "\x7b\"grant_type\":\"client_credentials\",\"client_id\":\"" ++ clientId ++
    "\",\"client_secret\":\"" ++ clientSecret ++ "\"\x7d"

/-- The fetch call issued by authenticate: POST to the token endpoint with
the JSON client-credentials grant body. -/
def authCall (st : SDKState) : HttpCall :=
  { method := "POST"
    url := getBaseUrl st.config ++ "/oauth/token"
    headers := [("Content-Type", "application/json")]
    body := some (tokenRequestBody ((st.config.clientId).getD "")
      ((st.config.clientSecret).getD "")) }

/-- SintezySDK.authenticate at instant now, given the response resp of the
token endpoint: issues one POST to \x7bbaseUrl\x7d/oauth/token; on a
non-success status throws a SintezySDKError built from the error body (or an
empty object when that body does not parse) with the fixed code AUTH_FAILED;
on success stores and returns the token with expiresAt = now plus expires_in
seconds. -/
def authenticate (st : SDKState) (now : Int) (resp : TokenHttpResponse) :
    SDKState × List HttpCall × Except SDKFailure AuthToken :=
  let call : HttpCall := authCall st
  if !(fetchOk resp.status) then
    let error := (resp.errorBody).getD ⟨none, none⟩
    (st, [call], .error (.sdk ⟨jsOrDefault error.message "Authentication failed",
      some resp.status, some "AUTH_FAILED"⟩))
  else
    match resp.successBody with
    | none => (st, [call], .error .jsonRejected)
    | some data =>
      let tok : AuthToken :=
        { accessToken := data.access_token
          expiresIn := data.expires_in
          tokenType := data.token_type
          expiresAt := now + data.expires_in * 1000 }
      ({ st with token := some tok }, [call], .ok tok)

/-- SintezySDK.isAuthenticated at instant now: a token is held and its
expiresAt exceeds now plus 60000 milliseconds. -/
def isAuthenticated (st : SDKState) (now : Int) : Bool :=
  match st.token with
  | none => false
  | some t => decide (t.expiresAt > now + 60000)

/-- SintezySDK.ensureAuthenticated: authenticate when isAuthenticated is
false, else return the held token with no network call. -/
def ensureAuthenticated (st : SDKState) (now : Int) (resp : TokenHttpResponse) :
    SDKState × List HttpCall × Except SDKFailure AuthToken :=
  if !(isAuthenticated st now) then
    authenticate st now resp
  else
    (st, [], .ok ((st.token).getD default))

/-- SintezySDK.request: runs ensureAuthenticated (tokResp being the response
the token endpoint would deliver if called), then issues one call to
\x7bbaseUrl\x7d\x7bpath\x7d with the bearer header from the held token; on a
non-success status throws a SintezySDKError built from the error body (or an
empty object when that body does not parse); on success returns the parsed
body. -/
def request (A : Type) (st : SDKState) (now : Int) (tokResp : TokenHttpResponse)
    (method path : String) (body : Option String) (resp : ReqHttpResponse A) :
    SDKState × List HttpCall × Except SDKFailure A :=
  match ensureAuthenticated st now tokResp with
  | (st1, calls, .error e) => (st1, calls, .error e)
  | (st1, calls, .ok _) =>
    let call : HttpCall :=
      { method := method
        url := getBaseUrl st1.config ++ path
        headers := [("Content-Type", "application/json"),
          ("Authorization", "Bearer " ++ ((st1.token).getD default).accessToken)]
        body := body }
    if !(fetchOk resp.status) then
      let error := (resp.errorBody).getD ⟨none, none⟩
      (st1, calls ++ [call],
        .error (.sdk ⟨jsOrDefault error.message ("Request failed: " ++ method ++ " " ++ path),
          some resp.status, error.code⟩))
    else
      match resp.successBody with
      | none => (st1, calls ++ [call], .error .jsonRejected)
      | some data => (st1, calls ++ [call], .ok data)

/-- CreateAppointmentParams from the source; metadata values are modelled as
strings. -/
structure CreateAppointmentParams where
  userEmail : String
  userName : Option String
  userPhone : Option String
  userOccupation : Option String
  userOccupationDoc : Option String
  metadata : Option (List (String × String))
deriving DecidableEq, Repr

/-- Appointment from the source. -/
structure Appointment where
  id : String
  secureId : String
  userId : String
  status : String
  createdAt : String
deriving DecidableEq, Repr

/-- A JSON string literal (escaping not modelled; field values here carry no
quotes). -/
def jsonStr (s : String) : String := "\"" ++ s ++ "\""

/-- One key-value member of a JSON object. -/
def jsonField (k v : String) : String := jsonStr k ++ ":" ++ v

/-- JSON.stringify of a metadata record with string values. -/
def encodeMetadata (m : List (String × String)) : String :=
  "\x7b" ++ String.intercalate "," (m.map fun kv => jsonField kv.1 (jsonStr kv.2)) ++ "\x7d"

/-- JSON.stringify of CreateAppointmentParams: present fields in declaration
order, absent optional fields omitted. -/
def encodeCreateAppointmentParams (p : CreateAppointmentParams) : String :=
  let fields : List (Option String) :=
    [some (jsonField "userEmail" (jsonStr p.userEmail)),
     (p.userName).map (fun v => jsonField "userName" (jsonStr v)),
     (p.userPhone).map (fun v => jsonField "userPhone" (jsonStr v)),
     (p.userOccupation).map (fun v => jsonField "userOccupation" (jsonStr v)),
     (p.userOccupationDoc).map (fun v => jsonField "userOccupationDoc" (jsonStr v)),
     (p.metadata).map (fun m => jsonField "metadata" (encodeMetadata m))]
  "\x7b" ++ String.intercalate "," (fields.filterMap id) ++ "\x7d"

/-- SintezySDK.createAppointment: POST /sdk/appointments with the params as
JSON body, through request. -/
def createAppointment (st : SDKState) (now : Int) (tokResp : TokenHttpResponse)
    (params : CreateAppointmentParams) (resp : ReqHttpResponse Appointment) :
    SDKState × List HttpCall × Except SDKFailure Appointment :=
  request Appointment st now tokResp "POST" "/sdk/appointments"
    (some (encodeCreateAppointmentParams params)) resp

/-! Concrete sample data used by witness theorems. -/

/-- A sample held token: accessToken abc, 3600 s lifetime, expiring at
instant 3600000 ms. -/
def sampleToken : AuthToken := ⟨"abc", 3600, "Bearer", 3600000⟩

/-- A sample valid configuration (production, no baseUrl override). -/
def sampleConfig : SintezySDKConfig := ⟨some "cid", some "secret", some Env.production, none⟩

/-- A freshly constructed client: no token held. -/
def sampleStateFresh : SDKState := ⟨sampleConfig, none⟩

/-- A client currently holding sampleToken. -/
def sampleStateAuthed : SDKState := ⟨sampleConfig, some sampleToken⟩

/-- A successful token-endpoint response granting abc for 3600 s. -/
def sampleTokenResp : TokenHttpResponse := ⟨200, some ⟨"abc", 3600, "Bearer"⟩, none⟩

/-- The trace of authenticate is always exactly the single token-endpoint
call, whatever the response. -/
theorem authenticate_calls (st : SDKState) (now : Int) (resp : TokenHttpResponse) :
    (authenticate st now resp).2.1 = [authCall st] := by
  unfold authenticate
  dsimp only
  split
  · rfl
  · split <;> rfl

/-- C1: for every client state, when isAuthenticated is true,
ensureAuthenticated issues no HTTP call, leaves the state unchanged and
returns the currently held token; when isAuthenticated is false, it behaves
exactly as one call to authenticate, which issues exactly one HTTP call, and
that call targets the token endpoint. -/
theorem C1_ensureAuthenticated_guard (st : SDKState) (now : Int) (resp : TokenHttpResponse) :
    (isAuthenticated st now = true →
      ∃ t, st.token = some t ∧
        ensureAuthenticated st now resp = (st, [], Except.ok t)) ∧
    (isAuthenticated st now = false →
      ensureAuthenticated st now resp = authenticate st now resp ∧
      (authenticate st now resp).2.1.length = 1 ∧
      ∀ c ∈ (authenticate st now resp).2.1,
        c.url = getBaseUrl st.config ++ "/oauth/token") := by
  constructor
  · intro h
    cases hs : st.token with
    | none => exact absurd h (by simp [isAuthenticated, hs])
    | some t => exact ⟨t, by simp [hs], by simp [ensureAuthenticated, h, hs]⟩
  · intro h
    refine ⟨by simp [ensureAuthenticated, h], ?_, ?_⟩
    · rw [authenticate_calls]
      rfl
    · intro c hc
      rw [authenticate_calls] at hc
      simp only [List.mem_singleton] at hc
      rw [hc]
      rfl

/-- C1 witness: a client holding a token with more than 60 s left returns it
with no call. -/
theorem C1_witness :
    ensureAuthenticated sampleStateAuthed 0 sampleTokenResp
      = (sampleStateAuthed, [], Except.ok sampleToken) := by
  obtain ⟨t, ht, he⟩ :=
    (C1_ensureAuthenticated_guard sampleStateAuthed 0 sampleTokenResp).1 (by decide)
  have h2 : some sampleToken = some t := ht
  cases Option.some.inj h2
  exact he

/-- C2: isAuthenticated is true iff a token is held whose expiresAt lies
strictly more than 60000 ms after now; it depends only on the stored token
and the clock (it is a pure Bool-valued function of the state, with no trace
and no successor state by its very type); and after a successful authenticate
with expires_in 3600 at instant now, it is true at now + 3500 s, false at
exactly now + 3540 s, and false at now + 3541 s. -/
theorem C2_isAuthenticated_margin (st st2 : SDKState) (now : Int)
    (resp : TokenHttpResponse) (data : TokenSuccessBody)
    (hok : fetchOk resp.status = true) (hbody : resp.successBody = some data)
    (hexp : data.expires_in = 3600) (htok : st.token = st2.token) :
    (isAuthenticated st now = true ↔
      ∃ t, st.token = some t ∧ t.expiresAt > now + 60000) ∧
    isAuthenticated st now = isAuthenticated st2 now ∧
    (isAuthenticated (authenticate st now resp).1 (now + 3500 * 1000) = true ∧
     isAuthenticated (authenticate st now resp).1 (now + 3540 * 1000) = false ∧
     isAuthenticated (authenticate st now resp).1 (now + 3541 * 1000) = false) := by
  refine ⟨?_, ?_, ?_⟩
  · cases hs : st.token with
    | none => simp [isAuthenticated, hs]
    | some t => simp [isAuthenticated, hs]
  · unfold isAuthenticated
    rw [htok]
  · have hst : (authenticate st now resp).1.token
        = some ⟨data.access_token, data.expires_in, data.token_type,
            now + data.expires_in * 1000⟩ := by
      simp [authenticate, hok, hbody]
    refine ⟨?_, ?_, ?_⟩ <;>
      · unfold isAuthenticated
        rw [hst]
        simp only [hexp, decide_eq_true_eq, decide_eq_false_iff_not]
        omega

/-- C2 witness: instantiated on a fresh client and the sample 3600 s grant at
instant 0. -/
theorem C2_witness :
    isAuthenticated (authenticate sampleStateFresh 0 sampleTokenResp).1 (3500 * 1000) = true ∧
    isAuthenticated (authenticate sampleStateFresh 0 sampleTokenResp).1 (3540 * 1000) = false ∧
    isAuthenticated (authenticate sampleStateFresh 0 sampleTokenResp).1 (3541 * 1000) = false := by
  have h := (C2_isAuthenticated_margin sampleStateFresh sampleStateFresh 0
    sampleTokenResp ⟨"abc", 3600, "Bearer"⟩ (by decide) rfl rfl rfl).2.2
  simpa using h

/-- C3: on every success response (2xx status with a parsed body),
authenticate stores a token whose fields copy the body and whose expiresAt is
now plus expires_in seconds (in ms), replaces whatever token was held before
(the new state holds exactly this record), keeps the config, and returns the
very record it stored. -/
theorem C3_authenticate_success (st : SDKState) (now : Int)
    (resp : TokenHttpResponse) (data : TokenSuccessBody)
    (hok : fetchOk resp.status = true) (hbody : resp.successBody = some data) :
    ∃ tok : AuthToken,
      (authenticate st now resp).1.token = some tok ∧
      (authenticate st now resp).2.2 = Except.ok tok ∧
      tok.accessToken = data.access_token ∧
      tok.expiresIn = data.expires_in ∧
      tok.tokenType = data.token_type ∧
      tok.expiresAt = now + data.expires_in * 1000 ∧
      (authenticate st now resp).1.config = st.config := by
  refine ⟨⟨data.access_token, data.expires_in, data.token_type,
    now + data.expires_in * 1000⟩, ?_, ?_, rfl, rfl, rfl, rfl, ?_⟩ <;>
    simp [authenticate, hok, hbody]

/-- C3 witness: the sample grant installed over a previously held token. -/
theorem C3_witness :
    (authenticate sampleStateAuthed 100000 sampleTokenResp).1.token
      = some ⟨"abc", 3600, "Bearer", 100000 + 3600 * 1000⟩ := by
  obtain ⟨tok, hstore, hret, ha, hb, hc, hd, he⟩ :=
    C3_authenticate_success sampleStateAuthed 100000 sampleTokenResp
      ⟨"abc", 3600, "Bearer"⟩ (by decide) rfl
  rw [hstore]
  have : tok = ⟨"abc", 3600, "Bearer", 100000 + 3600 * 1000⟩ := by
    cases tok
    simp_all
  rw [this]

/-- strTruthy is false exactly on the absent and the empty string. -/
theorem strTruthy_eq_false_iff (o : Option String) :
    strTruthy o = false ↔ o = none ∨ o = some "" := by
  cases o with
  | none => simp [strTruthy]
  | some s => simp [strTruthy]

/-- A failure response of the token endpoint whose body carries its own error
code INVALID_CLIENT. -/
def c4FailResp : TokenHttpResponse :=
  ⟨401, none, some ⟨some "bad credentials", some "INVALID_CLIENT"⟩⟩

/-- C4 counterexample: the token endpoint answers 401 with body message
"bad credentials" and body code INVALID_CLIENT, yet the raised error carries
the fixed code AUTH_FAILED, not the server-supplied code the claim
promises. -/
theorem C4_counterexample :
    (authenticate sampleStateFresh 0 c4FailResp).2.2
      = Except.error (SDKFailure.sdk ⟨"bad credentials", some 401, some "AUTH_FAILED"⟩) ∧
    ("AUTH_FAILED" : String) ≠ "INVALID_CLIENT" :=
  ⟨rfl, by decide⟩

/-- C4 amended: on every non-success response, authenticate raises an error
carrying the HTTP status, the server message when present and non-empty
(defaulting to "Authentication failed" when the body is absent, unparseable,
or its message is missing or empty), and always the fixed code
AUTH_FAILED. -/
theorem C4_authenticate_failure (st : SDKState) (now : Int)
    (resp : TokenHttpResponse) (hfail : fetchOk resp.status = false) :
    ∃ e : SintezySDKError,
      (authenticate st now resp).2.2 = Except.error (SDKFailure.sdk e) ∧
      e.statusCode = some resp.status ∧
      e.code = some "AUTH_FAILED" ∧
      (∀ m, ((resp.errorBody).getD ⟨none, none⟩).message = some m → m ≠ "" →
        e.message = m) ∧
      (((resp.errorBody).getD ⟨none, none⟩).message = none ∨
          ((resp.errorBody).getD ⟨none, none⟩).message = some "" →
        e.message = "Authentication failed") := by
  refine ⟨⟨jsOrDefault ((resp.errorBody).getD ⟨none, none⟩).message "Authentication failed",
    some resp.status, some "AUTH_FAILED"⟩, ?_, rfl, rfl, ?_, ?_⟩
  · simp [authenticate, hfail]
  · intro m hm hne
    simp [jsOrDefault, hm, hne]
  · intro hcase
    rcases hcase with h | h <;> simp [jsOrDefault, h]

/-- C4 witness: a 503 with no body at all yields the default message and
AUTH_FAILED. -/
theorem C4_witness :
    (authenticate sampleStateFresh 0 ⟨503, none, none⟩).2.2
      = Except.error (SDKFailure.sdk ⟨"Authentication failed", some 503, some "AUTH_FAILED"⟩) := by
  obtain ⟨e, he, hs, hc, hm, hd⟩ :=
    C4_authenticate_failure sampleStateFresh 0 ⟨503, none, none⟩ (by decide)
  have hmsg := hd (Or.inl rfl)
  rw [he]
  cases e
  simp_all

/-- C6: construction fails with the configuration error exactly when clientId
is missing or empty or clientSecret is missing or empty; on success the
stored config keeps the given fields with environment normalized to
production when unspecified, and the client starts with no token (the
embedding of the constructor is a pure function: no HTTP call is even
expressible in its type). -/
theorem C6_construct_validation (config : SintezySDKConfig) :
    ((∃ e, construct config = Except.error e) ↔
      config.clientId = none ∨ config.clientId = some "" ∨
      config.clientSecret = none ∨ config.clientSecret = some "") ∧
    ∀ st, construct config = Except.ok st →
      st.config.environment = some ((config.environment).getD Env.production) ∧
      st.config.clientId = config.clientId ∧
      st.config.clientSecret = config.clientSecret ∧
      st.config.baseUrl = config.baseUrl ∧
      st.token = none := by
  constructor
  · constructor
    · rintro ⟨e, he⟩
      unfold construct at he
      split at he
      · rename_i hcond
        simp only [Bool.or_eq_true, Bool.not_eq_true'] at hcond
        rcases hcond with h | h
        · rcases (strTruthy_eq_false_iff _).mp h with h2 | h2
          · exact Or.inl h2
          · exact Or.inr (Or.inl h2)
        · rcases (strTruthy_eq_false_iff _).mp h with h2 | h2
          · exact Or.inr (Or.inr (Or.inl h2))
          · exact Or.inr (Or.inr (Or.inr h2))
      · exact absurd he (by simp)
    · intro h
      refine ⟨⟨"clientId and clientSecret are required", none, none⟩, ?_⟩
      have hcond : (!(strTruthy config.clientId) || !(strTruthy config.clientSecret)) = true := by
        rcases h with h | h | h | h <;> simp [strTruthy, h]
      simp [construct, hcond]
  · intro st hst
    unfold construct at hst
    split at hst
    · exact absurd hst (by simp)
    · cases Except.ok.inj hst
      exact ⟨rfl, rfl, rfl, rfl, rfl⟩

/-- C6 witness: a valid config with no environment is accepted and
normalized to production with no token held. -/
theorem C6_witness :
    construct ⟨some "id", some "sec", none, none⟩
      = Except.ok ⟨⟨some "id", some "sec", some Env.production, none⟩, none⟩ ∧
    (⟨⟨some "id", some "sec", some Env.production, none⟩, none⟩ : SDKState).config.environment
      = some Env.production := by
  refine ⟨rfl, ?_⟩
  exact ((C6_construct_validation ⟨some "id", some "sec", none, none⟩).2 _ rfl).1

/-- A config whose baseUrl override is present but the empty string. -/
def c7Config : SintezySDKConfig := ⟨some "id", some "sec", some Env.production, some ""⟩

/-- C7 counterexample: with baseUrl set to the empty string, getBaseUrl does
not return it verbatim; it falls back to the production URL, because the
source tests the override with JavaScript truthiness. -/
theorem C7_counterexample :
    construct c7Config = Except.ok ⟨c7Config, none⟩ ∧
    c7Config.baseUrl = some "" ∧
    getBaseUrl (⟨c7Config, none⟩ : SDKState).config = "https://api.sintezy.com" ∧
    ("https://api.sintezy.com" : String) ≠ "" :=
  ⟨rfl, rfl, rfl, by decide⟩

/-- C7 amended: for every constructed client, getBaseUrl returns the baseUrl
override verbatim whenever it is set and non-empty, regardless of
environment; when baseUrl is unset or empty it returns the production URL for
environment production or unset, and the sandbox URL for environment sandbox
(purity holds by construction: getBaseUrl is a plain function of the
config). -/
theorem C7_getBaseUrl_resolution (config : SintezySDKConfig) (st : SDKState)
    (hok : construct config = Except.ok st) :
    (∀ u, config.baseUrl = some u → u ≠ "" → getBaseUrl st.config = u) ∧
    ((config.baseUrl = none ∨ config.baseUrl = some "") →
      ((config.environment = some Env.production ∨ config.environment = none) →
        getBaseUrl st.config = "https://api.sintezy.com") ∧
      (config.environment = some Env.sandbox →
        getBaseUrl st.config = "https://sandbox-api.sintezy.com")) := by
  unfold construct at hok
  split at hok
  · exact absurd hok (by simp)
  · cases Except.ok.inj hok
    constructor
    · intro u hu hne
      simp [getBaseUrl, strTruthy, hu, hne]
    · intro hb
      constructor
      · intro he
        rcases hb with hb | hb <;> rcases he with he | he <;>
          simp [getBaseUrl, strTruthy, hb, he]
      · intro he
        rcases hb with hb | hb <;> simp [getBaseUrl, strTruthy, hb, he]

/-- C7 witness: a non-empty override wins even in the sandbox environment. -/
theorem C7_witness :
    getBaseUrl
      (⟨⟨some "id", some "sec", some Env.sandbox, some "https://x.example"⟩, none⟩ : SDKState).config
      = "https://x.example" :=
  (C7_getBaseUrl_resolution ⟨some "id", some "sec", some Env.sandbox, some "https://x.example"⟩
    ⟨⟨some "id", some "sec", some Env.sandbox, some "https://x.example"⟩, none⟩ rfl).1
    "https://x.example" rfl (by decide)

/-- C9: whenever authenticate fails (non-success status, or a success status
whose body does not parse), the state, in particular the stored token, is
exactly what it was before the call. -/
theorem C9_authenticate_error_keeps_state (st : SDKState) (now : Int)
    (resp : TokenHttpResponse) (e : SDKFailure)
    (herr : (authenticate st now resp).2.2 = Except.error e) :
    (authenticate st now resp).1 = st := by
  by_cases hf : fetchOk resp.status
  · cases hb : resp.successBody with
    | none => simp [authenticate, hf, hb]
    | some data =>
      exfalso
      simp [authenticate, hf, hb] at herr
  · have hf2 : fetchOk resp.status = false := by
      cases hx : fetchOk resp.status
      · rfl
      · exact absurd hx hf
    simp [authenticate, hf2]

/-- C9 witness: a 500 with no body leaves the previously held token in
place. -/
theorem C9_witness :
    (authenticate sampleStateAuthed 0 ⟨500, none, none⟩).1 = sampleStateAuthed :=
  C9_authenticate_error_keeps_state sampleStateAuthed 0 ⟨500, none, none⟩
    (SDKFailure.sdk ⟨"Authentication failed", some 500, some "AUTH_FAILED"⟩) rfl

/-- The synthesized request-failure message is never the empty string. -/
theorem reqFailedMsg_ne_empty (method path : String) :
    "Request failed: " ++ method ++ " " ++ path ≠ "" := by
  intro h
  have hl := congrArg String.length h
  have e1 : ("Request failed: " : String).length = 16 := rfl
  have e2 : (" " : String).length = 1 := rfl
  have e3 : ("" : String).length = 0 := rfl
  rw [String.length_append, String.length_append, String.length_append, e1, e2, e3] at hl
  omega

/-- When the token guard succeeds and the domain endpoint answers a
non-success status, request throws the SintezySDKError built from the parsed
error body (an empty object when that body does not parse). -/
theorem request_failure_result (A : Type) (st : SDKState) (now : Int)
    (tokResp : TokenHttpResponse) (method path : String) (body : Option String)
    (resp : ReqHttpResponse A) (t : AuthToken)
    (hauth : (ensureAuthenticated st now tokResp).2.2 = Except.ok t)
    (hfail : fetchOk resp.status = false) :
    (request A st now tokResp method path body resp).2.2
      = Except.error (SDKFailure.sdk
          ⟨jsOrDefault ((resp.errorBody).getD ⟨none, none⟩).message
              ("Request failed: " ++ method ++ " " ++ path),
            some resp.status, ((resp.errorBody).getD ⟨none, none⟩).code⟩) := by
  rcases hE : ensureAuthenticated st now tokResp with ⟨st1, calls, r⟩
  rw [hE] at hauth
  dsimp only at hauth
  subst hauth
  unfold request
  rw [hE]
  simp [hfail]

/-- C5: for every non-success response of the domain endpoint (in a state
where the token guard succeeds), request raises an error with the HTTP
status, the error code parsed from the body (absent when the body is absent
or unparseable), and a message equal to the server message when present and
non-empty, else the synthesized string "Request failed: method path". -/
theorem C5_request_failure (st : SDKState) (now : Int) (tokResp : TokenHttpResponse)
    (method path : String) (body : Option String) (resp : ReqHttpResponse Appointment)
    (t : AuthToken)
    (hauth : (ensureAuthenticated st now tokResp).2.2 = Except.ok t)
    (hfail : fetchOk resp.status = false) :
    ∃ e : SintezySDKError,
      (request Appointment st now tokResp method path body resp).2.2
        = Except.error (SDKFailure.sdk e) ∧
      e.statusCode = some resp.status ∧
      e.code = ((resp.errorBody).getD ⟨none, none⟩).code ∧
      (∀ m, ((resp.errorBody).getD ⟨none, none⟩).message = some m → m ≠ "" →
        e.message = m) ∧
      (((resp.errorBody).getD ⟨none, none⟩).message = none ∨
          ((resp.errorBody).getD ⟨none, none⟩).message = some "" →
        e.message = "Request failed: " ++ method ++ " " ++ path) := by
  refine ⟨⟨jsOrDefault ((resp.errorBody).getD ⟨none, none⟩).message
      ("Request failed: " ++ method ++ " " ++ path),
    some resp.status, ((resp.errorBody).getD ⟨none, none⟩).code⟩,
    request_failure_result Appointment st now tokResp method path body resp t hauth hfail,
    rfl, rfl, ?_, ?_⟩
  · intro m hm hne
    simp [jsOrDefault, hm, hne]
  · rintro (h | h) <;> simp [jsOrDefault, h]

/-- C5 witness: the 404 example of the spec, with body message "not found"
and code NOT_FOUND. -/
theorem C5_witness :
    (request Appointment sampleStateAuthed 0 sampleTokenResp "GET" "/sdk/appointments/x"
        none ⟨404, none, some ⟨some "not found", some "NOT_FOUND"⟩⟩).2.2
      = Except.error (SDKFailure.sdk ⟨"not found", some 404, some "NOT_FOUND"⟩) := by
  obtain ⟨e, he, hs, hc, hm, hd⟩ :=
    C5_request_failure sampleStateAuthed 0 sampleTokenResp "GET" "/sdk/appointments/x"
      none ⟨404, none, some ⟨some "not found", some "NOT_FOUND"⟩⟩ sampleToken rfl (by decide)
  have hmsg := hm "not found" rfl (by decide)
  rw [he]
  cases e
  simp_all

/-- C10: in both authenticate and request, an error body whose message field
is present but empty yields the same default message as an absent one, never
the empty string. -/
theorem C10_empty_message_defaults (st : SDKState) (now : Int)
    (resp : TokenHttpResponse) (b : ErrorBody)
    (tokResp : TokenHttpResponse) (t : AuthToken) (method path : String)
    (body : Option String) (rresp : ReqHttpResponse Appointment) (rb : ErrorBody)
    (hfail : fetchOk resp.status = false) (hb : resp.errorBody = some b)
    (hbm : b.message = some "")
    (hauth : (ensureAuthenticated st now tokResp).2.2 = Except.ok t)
    (hrfail : fetchOk rresp.status = false) (hrb : rresp.errorBody = some rb)
    (hrm : rb.message = some "") :
    ((authenticate st now resp).2.2
        = Except.error (SDKFailure.sdk ⟨"Authentication failed", some resp.status,
            some "AUTH_FAILED"⟩) ∧
      ("Authentication failed" : String) ≠ "") ∧
    ((request Appointment st now tokResp method path body rresp).2.2
        = Except.error (SDKFailure.sdk ⟨"Request failed: " ++ method ++ " " ++ path,
            some rresp.status, rb.code⟩) ∧
      "Request failed: " ++ method ++ " " ++ path ≠ "") := by
  constructor
  · refine ⟨?_, by decide⟩
    simp [authenticate, hfail, hb, hbm, jsOrDefault]
  · refine ⟨?_, reqFailedMsg_ne_empty method path⟩
    have h := request_failure_result Appointment st now tokResp method path body rresp t
      hauth hrfail
    rw [h, hrb]
    simp [jsOrDefault, hrm]

/-- C10 witness: concrete 400 responses carrying message "" default in both
paths. -/
theorem C10_witness :
    (authenticate sampleStateFresh 0 ⟨400, none, some ⟨some "", some "X"⟩⟩).2.2
      = Except.error (SDKFailure.sdk ⟨"Authentication failed", some 400, some "AUTH_FAILED"⟩) ∧
    (request Appointment sampleStateAuthed 0 sampleTokenResp "GET" "/sdk/documents/d"
        none ⟨400, none, some ⟨some "", some "X"⟩⟩).2.2
      = Except.error (SDKFailure.sdk ⟨"Request failed: GET /sdk/documents/d", some 400,
          some "X"⟩) := by
  have h := C10_empty_message_defaults sampleStateFresh 0 ⟨400, none, some ⟨some "", some "X"⟩⟩
    ⟨some "", some "X"⟩ sampleTokenResp sampleToken "GET" "/sdk/documents/d" none
    ⟨400, none, some ⟨some "", some "X"⟩⟩ ⟨some "", some "X"⟩
    (by decide) rfl rfl ?_ (by decide) rfl rfl
  · exact ⟨h.1.1, h.2.1⟩
  · rfl

/-- The concrete appointment params of the end-to-end scenario. -/
def c8Params : CreateAppointmentParams := ⟨"d@x.com", none, none, none, none, none⟩

/-- The appointment the mocked endpoint returns. -/
def c8Appt : Appointment := ⟨"a1", "s1", "u1", "pending", "2024-01-01T00:00:00Z"⟩

/-- The mocked response of POST /sdk/appointments. -/
def c8ApptResp : ReqHttpResponse Appointment := ⟨200, some c8Appt, none⟩

/-- C8: on a freshly constructed production client, with the mocked token
grant abc/3600 and the mocked appointment response, createAppointment issues
exactly the token call followed by exactly one appointment call carrying the
header Authorization Bearer abc and the JSON-encoded params as body, stores
the granted token, and returns the appointment body unmodified. -/
theorem C8_end_to_end :
    construct ⟨some "cid", some "secret", some Env.production, none⟩
      = Except.ok sampleStateFresh ∧
    createAppointment sampleStateFresh 0 sampleTokenResp c8Params c8ApptResp
      = (⟨sampleConfig, some ⟨"abc", 3600, "Bearer", 3600000⟩⟩,
         [authCall sampleStateFresh,
          ⟨"POST", "https://api.sintezy.com/sdk/appointments",
            [("Content-Type", "application/json"), ("Authorization", "Bearer abc")],
            some "\x7b\"userEmail\":\"d@x.com\"\x7d"⟩],
         Except.ok c8Appt) ∧
    (authCall sampleStateFresh).url = "https://api.sintezy.com/oauth/token" ∧
    encodeCreateAppointmentParams c8Params = "\x7b\"userEmail\":\"d@x.com\"\x7d" ∧
    c8ApptResp.successBody = some c8Appt :=
  ⟨rfl, rfl, rfl, rfl, rfl⟩

end Sintezy
